import Mathlib

/-!
Verification of the yt-video-summarizer repository.

The definitions below are a shallow embedding of the repository's code:

* `extract_video_id` embeds `src/utils/general.py::extract_video_id`
  (regex substring search for three URL shapes, in priority order);
* `get_video_info` embeds `src/utils/youtube.py::get_video_info`
  (authenticated metadata lookup, Python `or`-truthiness fallback chain);
* `find_english_caption` and `get_english_caption_for_video` embed the
  caption helpers of `src/utils/youtube.py`;
* `ask` embeds `src/utils/gemini.py::ask` (the relay-backend variant);
* `run_pipeline` and `summarize_endpoint` embed the `/api/summarize`
  handler of `src/app.py` with the four pipeline stages abstracted as
  function parameters (they call external services);
* definitions whose doc comment starts with `Modelled from the spec:`
  stand for code of the repository that is only referenced here
  (its callers and declarations are in the tree, the bodies are not).

Python exceptions are modelled with `Option`/`Except`; machine-level
concerns do not arise (the code is string manipulation and control flow).
-/

set_option autoImplicit false

/-! ### URL identifier extractor (`src/utils/general.py`) -/

/-- The regex character class `[a-zA-Z0-9_-]` of `extract_video_id`. -/
def isIdChar (c : Char) : Bool :=
  c.isAlpha || c.isDigit || c == '_' || c == '-'

/-- Literal part of the first pattern, `(?:youtube\.com\/watch\?v=)`. -/
def watchPat : List Char := "youtube.com/watch?v=".toList

/-- Literal part of the second pattern, `(?:youtu\.be\/)`. -/
def shortPat : List Char := "youtu.be/".toList

/-- Literal part of the third pattern, `(?:youtube\.com\/embed\/)`. -/
def embedPat : List Char := "youtube.com/embed/".toList

/-- The three patterns, in the priority order the source tries them. -/
def pats : List (List Char) := [watchPat, shortPat, embedPat]

/-- Whether one pattern matches at the head of `s`: the literal prefix
followed immediately by 11 characters of the id class, as in
`(?:<pat>)([a-zA-Z0-9_-]{11})`. -/
def matchesAt (pat s : List Char) : Bool :=
  ((s.drop pat.length).take 11).length == 11 &&
    s.take pat.length == pat &&
    ((s.drop pat.length).take 11).all isIdChar

/-- The captured group: the 11 characters following the literal prefix. -/
def token (pat s : List Char) : List Char :=
  (s.drop pat.length).take 11

/-- `re.search` for one pattern: leftmost position whose suffix matches,
returning the captured group. -/
def searchPat (pat : List Char) : List Char → Option (List Char)
  | [] => none
  | c :: rest =>
    if matchesAt pat (c :: rest) then some (token pat (c :: rest))
    else searchPat pat rest

/-- `src/utils/general.py::extract_video_id`: try the three patterns in
order, return the first captured group; `none` models the trailing
`raise ValueError`. -/
def extract_video_id (url : List Char) : Option (List Char) :=
  match searchPat watchPat url with
  | some vid => some vid
  | none =>
    match searchPat shortPat url with
    | some vid => some vid
    | none => searchPat embedPat url

lemma matchesAt_nil (pat : List Char) : matchesAt pat [] = false := by
  simp [matchesAt]

lemma searchPat_some_of_matchesAt (pat : List Char) :
    ∀ (url : List Char) (k : Nat), matchesAt pat (url.drop k) = true →
      ∃ r, searchPat pat url = some r := by
  intro url
  induction url with
  | nil =>
    intro k h
    rw [List.drop_nil, matchesAt_nil] at h
    exact absurd h (by simp)
  | cons c rest ih =>
    intro k h
    by_cases hm : matchesAt pat (c :: rest) = true
    · exact ⟨token pat (c :: rest), by simp [searchPat, hm]⟩
    · rw [Bool.not_eq_true] at hm
      cases k with
      | zero =>
        rw [List.drop_zero, hm] at h
        exact absurd h (by simp)
      | succ k' =>
        rw [List.drop_succ_cons] at h
        obtain ⟨r, hr⟩ := ih k' h
        exact ⟨r, by simp [searchPat, hm, hr]⟩

lemma searchPat_some_spec (pat : List Char) :
    ∀ (url r : List Char), searchPat pat url = some r →
      ∃ k, k < url.length ∧ matchesAt pat (url.drop k) = true ∧
        token pat (url.drop k) = r := by
  intro url
  induction url with
  | nil => intro r h; simp [searchPat] at h
  | cons c rest ih =>
    intro r h
    by_cases hm : matchesAt pat (c :: rest) = true
    · refine ⟨0, by simp, ?_, ?_⟩
      · rw [List.drop_zero]; exact hm
      · rw [List.drop_zero]
        have := h
        rw [searchPat, if_pos hm] at this
        exact Option.some.inj this
    · rw [Bool.not_eq_true] at hm
      rw [searchPat, if_neg (by simp [hm])] at h
      obtain ⟨k, hk, hmk, htk⟩ := ih r h
      refine ⟨k + 1, by simpa using Nat.succ_lt_succ hk, ?_, ?_⟩
      · rw [List.drop_succ_cons]; exact hmk
      · rw [List.drop_succ_cons]; exact htk

lemma matches_of_append (pat vid b : List Char)
    (hlen : vid.length = 11) (hall : vid.all isIdChar = true) :
    matchesAt pat (pat ++ (vid ++ b)) = true ∧
      token pat (pat ++ (vid ++ b)) = vid := by
  have hdrop : (pat ++ (vid ++ b)).drop pat.length = vid ++ b :=
    List.drop_left pat (vid ++ b)
  have htake : (pat ++ (vid ++ b)).take pat.length = pat :=
    List.take_left pat (vid ++ b)
  have htk11 : (vid ++ b).take 11 = vid := by
    rw [← hlen]; exact List.take_left vid b
  constructor
  · simp [matchesAt, hdrop, htake, htk11, hlen, hall]
  · simp [token, hdrop, htk11]

/-- Any string of the shape `a ++ pat ++ vid ++ b` with a valid token
has a match position, namely `a.length`. -/
lemma matchesAt_of_decomp (pat vid a b : List Char)
    (hlen : vid.length = 11) (hall : vid.all isIdChar = true) :
    matchesAt pat ((a ++ (pat ++ (vid ++ b))).drop a.length) = true ∧
      token pat ((a ++ (pat ++ (vid ++ b))).drop a.length) = vid := by
  rw [List.drop_left]
  exact matches_of_append pat vid b hlen hall

/-- Core lemma for the extractor: if some pattern occurrence carries the
token `vid`, and every match position of every pattern carries `vid`,
then extraction returns `vid`. -/
lemma extract_some_of_occ (url vid : List Char)
    (hlen : vid.length = 11) (hall : vid.all isIdChar = true)
    (hocc : ∃ pat, pat ∈ pats ∧ ∃ a b, url = a ++ (pat ++ (vid ++ b)))
    (huniq : ∀ k, k < url.length → ∀ pat, pat ∈ pats →
      matchesAt pat (url.drop k) = true → token pat (url.drop k) = vid) :
    extract_video_id url = some vid := by
  obtain ⟨pat, hmem, a, b, hurl⟩ := hocc
  have hpos : matchesAt pat (url.drop a.length) = true := by
    rw [hurl]; exact (matchesAt_of_decomp pat vid a b hlen hall).1
  have hsome : ∃ r, searchPat pat url = some r :=
    searchPat_some_of_matchesAt pat url a.length hpos
  have key : ∀ q r, q ∈ pats → searchPat q url = some r → r = vid := by
    intro q r hq hr
    obtain ⟨k, hk, hmk, htk⟩ := searchPat_some_spec q url r hr
    rw [← htk]
    exact huniq k hk q hq hmk
  cases hw : searchPat watchPat url with
  | some r =>
    have : r = vid := key watchPat r (by simp [pats]) hw
    simp [extract_video_id, hw, this]
  | none =>
    cases hs : searchPat shortPat url with
    | some r =>
      have : r = vid := key shortPat r (by simp [pats]) hs
      simp [extract_video_id, hw, hs, this]
    | none =>
      cases he : searchPat embedPat url with
      | some r =>
        have : r = vid := key embedPat r (by simp [pats]) he
        simp [extract_video_id, hw, hs, he, this]
      | none =>
        obtain ⟨r, hr⟩ := hsome
        have hpats : pat = watchPat ∨ pat = shortPat ∨ pat = embedPat := by
          simpa [pats] using hmem
        rcases hpats with h | h | h
        · rw [h, hw] at hr; exact absurd hr (by simp)
        · rw [h, hs] at hr; exact absurd hr (by simp)
        · rw [h, he] at hr; exact absurd hr (by simp)

/-- Claim C1: for every URL string containing, anywhere in the string
(substring search, no full-URL anchoring), one of the accepted shapes
`watch?v=<id>`, short-domain `/<id>`, or `embed/<id>` where the id is an
11-character token over `[A-Za-z0-9_-]` (and the URL determines that
token uniquely across all match positions), `extract_video_id` returns
exactly that 11-character token. -/
theorem extract_video_id_returns_token (url vid : List Char)
    (hlen : vid.length = 11) (hall : vid.all isIdChar = true)
    (hocc : ∃ pat, pat ∈ pats ∧ ∃ a b, url = a ++ (pat ++ (vid ++ b)))
    (huniq : ∀ k, k < url.length → ∀ pat, pat ∈ pats →
      matchesAt pat (url.drop k) = true → token pat (url.drop k) = vid) :
    extract_video_id url = some vid :=
  extract_some_of_occ url vid hlen hall hocc huniq

/-- Witness for C1 at the spec's end-to-end example URL. -/
theorem extract_video_id_returns_token_witness :
    extract_video_id "https://www.youtube.com/watch?v=dQw4w9WgXcQ".toList =
      some "dQw4w9WgXcQ".toList :=
  extract_video_id_returns_token _ _ (by decide) (by decide)
    ⟨watchPat, by decide, "https://www.".toList, [], by decide⟩
    (by decide)

/-- Claim C2: for every string in which none of the three recognized URL
shapes match (no 11-character `[A-Za-z0-9_-]` token immediately following
`youtube.com/watch?v=`, `youtu.be/`, or `youtube.com/embed/` at any
position), `extract_video_id` fails with the `ValueError` (modelled as
`none`) rather than returning a value. -/
theorem extract_video_id_fails_of_no_match (url : List Char)
    (h : ∀ k, k < url.length → ∀ pat, pat ∈ pats →
      matchesAt pat (url.drop k) = false) :
    extract_video_id url = none := by
  have hnone : ∀ q, q ∈ pats → searchPat q url = none := by
    intro q hq
    cases hqr : searchPat q url with
    | none => rfl
    | some r =>
      obtain ⟨k, hk, hmk, _⟩ := searchPat_some_spec q url r hqr
      rw [h k hk q hq] at hmk
      exact absurd hmk (by simp)
  simp [extract_video_id, hnone watchPat (by simp [pats]),
    hnone shortPat (by simp [pats]), hnone embedPat (by simp [pats])]

/-- Witness for C2 at a non-YouTube URL. -/
theorem extract_video_id_fails_of_no_match_witness :
    extract_video_id "https://vimeo.com/123456789".toList = none :=
  extract_video_id_fails_of_no_match _ (by decide)

/-- Claim C10: for every URL in which a recognized shape literal
(`youtube.com/watch?v=`, `youtu.be/`, or `youtube.com/embed/`) is
followed by more than 11 consecutive characters from `[A-Za-z0-9_-]`
(and that run determines the token at every match position),
`extract_video_id` does not fail: it returns the first 11 characters of
that longer run. -/
theorem extract_video_id_truncates_long_run (url run pat : List Char)
    (hpat : pat ∈ pats) (hlen : 12 ≤ run.length)
    (hall : run.all isIdChar = true)
    (hocc : ∃ a b, url = a ++ (pat ++ (run ++ b)))
    (huniq : ∀ k, k < url.length → ∀ q, q ∈ pats →
      matchesAt q (url.drop k) = true → token q (url.drop k) = run.take 11) :
    extract_video_id url = some (run.take 11) := by
  obtain ⟨a, b, hurl⟩ := hocc
  refine extract_some_of_occ url (run.take 11) ?_ ?_
    ⟨pat, hpat, a, run.drop 11 ++ b, ?_⟩ huniq
  · rw [List.length_take]
    omega
  · rw [List.all_eq_true] at hall ⊢
    intro x hx
    exact hall x (List.take_subset _ _ hx)
  · rw [hurl]
    conv_lhs => rw [← List.take_append_drop 11 run]
    rw [List.append_assoc]

/-- Witness for C10: a short-domain URL whose id run is 16 characters. -/
theorem extract_video_id_truncates_long_run_witness :
    extract_video_id "https://youtu.be/abcdefghij123456".toList =
      some "abcdefghij1".toList := by
  have h := extract_video_id_truncates_long_run
    "https://youtu.be/abcdefghij123456".toList "abcdefghij123456".toList
    shortPat (by decide) (by decide) (by decide)
    ⟨"https://".toList, [], by decide⟩ (by decide)
  simpa using h

/-! ### Shared pipeline data model -/

/-- The `{"title": ..., "thumbnail": ...}` dictionary both metadata
providers return. -/
structure VideoInfo where
  title : String
  thumbnail : String
deriving DecidableEq

/-- A Python exception as seen by the `try/except` blocks of `app.py`
and `cli.py`: either a `ValueError` or any other exception. -/
inductive PyErr where
  | valueError (msg : String)
  | other (msg : String)
deriving DecidableEq

/-- The success payload of `POST /api/summarize` in `src/app.py`. -/
structure Payload where
  video_id : String
  video_title : String
  thumbnail : String
  summary : String
deriving DecidableEq

/-- JSON body of a response from the endpoint: either the success
payload or an object with a single `error` field. -/
inductive RespBody where
  | payload (p : Payload)
  | err (msg : String)
deriving DecidableEq

/-- An HTTP response: status code plus JSON body. -/
structure Resp where
  status : Nat
  body : RespBody
deriving DecidableEq

/-- `SUMMARIZE_PROMPT` of `src/utils/gemini.py` up to its single
placeholder. -/
def SUMMARIZE_PROMPT_head : String :=
  "\nYour job is to summarize the given YouTube video transcript. \n\n- Make your summary concise and information-dense.\n- Organize it into a list of bullet points.\n- Do not include any additional text or formatting.\n- Only use the information provided in the transcript.\n\nTranscript:\n"

/-- `SUMMARIZE_PROMPT.format(transcript=...)`: the fixed template with
the transcript substituted for its one placeholder. -/
def SUMMARIZE_PROMPT_format (transcript : String) : String :=
  SUMMARIZE_PROMPT_head ++ transcript ++ "\n"

/-- The `try:` block of the `/api/summarize` handler in `src/app.py`:
extract the id, fetch info, fetch transcript, summarize — each stage a
fallible call, the first raised exception aborting the rest. The four
stages are parameters because their bodies call external services. -/
def run_pipeline (extract : String → Except PyErr String)
    (getInfo : String → Except PyErr VideoInfo)
    (getTranscript : String → Except PyErr String)
    (askFn : String → Except PyErr String)
    (video_url : String) : Except PyErr Payload :=
  match extract video_url with
  | .error e => .error e
  | .ok video_id =>
    match getInfo video_id with
    | .error e => .error e
    | .ok video_info =>
      match getTranscript video_id with
      | .error e => .error e
      | .ok transcript =>
        match askFn (SUMMARIZE_PROMPT_format transcript) with
        | .error e => .error e
        | .ok summary =>
          .ok ⟨video_id, video_info.title, video_info.thumbnail, summary⟩

/-- The `/api/summarize` handler of `src/app.py`: run the pipeline;
`except ValueError` returns 400 with the exception's message,
`except Exception` returns 500 with a fixed generic message. -/
def summarize_endpoint (extract : String → Except PyErr String)
    (getInfo : String → Except PyErr VideoInfo)
    (getTranscript : String → Except PyErr String)
    (askFn : String → Except PyErr String)
    (video_url : String) : Resp :=
  match run_pipeline extract getInfo getTranscript askFn video_url with
  | .ok p => ⟨200, .payload p⟩
  | .error (.valueError msg) => ⟨400, .err msg⟩
  | .error (.other _) => ⟨500, .err "An unexpected error occurred"⟩

/-- Claim C6: for every request to `POST /api/summarize`: on success the
response is 200 with JSON containing exactly the fields `video_id`,
`video_title`, `thumbnail`, `summary`; on a validation failure
(`ValueError` from any stage) it is 400 with the specific message; on
any other exception it is 500 with a generic message that does not
include the internal exception detail. -/
theorem summarize_endpoint_responses
    (extract : String → Except PyErr String)
    (getInfo : String → Except PyErr VideoInfo)
    (getTranscript : String → Except PyErr String)
    (askFn : String → Except PyErr String)
    (video_url : String) :
    (∀ vid info tr sm, extract video_url = .ok vid →
      getInfo vid = .ok info → getTranscript vid = .ok tr →
      askFn (SUMMARIZE_PROMPT_format tr) = .ok sm →
      summarize_endpoint extract getInfo getTranscript askFn video_url =
        ⟨200, .payload ⟨vid, info.title, info.thumbnail, sm⟩⟩) ∧
    (∀ msg,
      run_pipeline extract getInfo getTranscript askFn video_url =
        .error (.valueError msg) →
      summarize_endpoint extract getInfo getTranscript askFn video_url =
        ⟨400, .err msg⟩) ∧
    (∀ msg,
      run_pipeline extract getInfo getTranscript askFn video_url =
        .error (.other msg) →
      summarize_endpoint extract getInfo getTranscript askFn video_url =
        ⟨500, .err "An unexpected error occurred"⟩) := by
  refine ⟨?_, ?_, ?_⟩
  · intro vid info tr sm h1 h2 h3 h4
    simp [summarize_endpoint, run_pipeline, h1, h2, h3, h4]
  · intro msg h
    simp [summarize_endpoint, h]
  · intro msg h
    simp [summarize_endpoint, h]

/-- Witness for C6: concrete stage functions succeed, giving 200 with
the exact payload. -/
theorem summarize_endpoint_responses_witness :
    summarize_endpoint (fun _ => .ok "dQw4w9WgXcQ")
      (fun _ => .ok ⟨"Title", "Thumb"⟩) (fun _ => .ok "transcript")
      (fun _ => .ok "summary") "https://www.youtube.com/watch?v=dQw4w9WgXcQ" =
      ⟨200, .payload ⟨"dQw4w9WgXcQ", "Title", "Thumb", "summary"⟩⟩ :=
  (summarize_endpoint_responses (fun _ => .ok "dQw4w9WgXcQ")
    (fun _ => .ok ⟨"Title", "Thumb"⟩) (fun _ => .ok "transcript")
    (fun _ => .ok "summary") "https://www.youtube.com/watch?v=dQw4w9WgXcQ").1
    "dQw4w9WgXcQ" ⟨"Title", "Thumb"⟩ "transcript" "summary" rfl rfl rfl rfl

/-! ### Streaming orchestrator (historical variant, not under `src/`;
its event protocol is given by the specification) -/

/-- The tagged events of the streaming delivery surface. -/
inductive PipelineEvent where
  | progress (message : String)
  | complete (video_id : String) (info : VideoInfo) (summary : String)
  | error (message : String)
deriving DecidableEq

/-- Whether an event is terminal (`complete` or `error`). -/
def isTerminal : PipelineEvent → Bool
  | .progress _ => false
  | .complete _ _ _ => true
  | .error _ => true

/-- Modelled from the spec: the streaming-mode orchestrator, whose body
is not in the tree (only the batch handler of `src/app.py` is). Per
§4.5, it emits a `Progress` event before FetchInfo, before
FetchTranscript, and before Summarize; one terminal `Complete` event
with the aggregate payload on success, or one terminal `Error` event on
failure from any stage. -/
def streamEvents (extractRes : Except String String)
    (getInfo : String → Except String VideoInfo)
    (getTranscript : String → Except String String)
    (summarize : String → Except String String) : List PipelineEvent :=
  match extractRes with
  | .error e => [.error e]
  | .ok video_id =>
    .progress "Fetching video info..." ::
    match getInfo video_id with
    | .error e => [.error e]
    | .ok info =>
      .progress "Fetching transcript..." ::
      match getTranscript video_id with
      | .error e => [.error e]
      | .ok transcript =>
        .progress "Summarizing..." ::
        match summarize transcript with
        | .error e => [.error e]
        | .ok summary => [.complete video_id info summary]

/-- Claim C3: in streaming mode, for every request with a valid URL on
which every stage succeeds, the emitted event sequence is exactly
`progress, progress, progress, complete` in that order; and for every
request whatsoever, exactly one terminal event is emitted and no event
follows it. -/
theorem streaming_event_sequence :
    (∀ (getInfo : String → Except String VideoInfo)
       (getTranscript : String → Except String String)
       (summarize : String → Except String String)
       (video_id : String) (info : VideoInfo) (tr sm : String),
      getInfo video_id = .ok info → getTranscript video_id = .ok tr →
      summarize tr = .ok sm →
      streamEvents (.ok video_id) getInfo getTranscript summarize =
        [.progress "Fetching video info...",
         .progress "Fetching transcript...",
         .progress "Summarizing...",
         .complete video_id info sm]) ∧
    (∀ (extractRes : Except String String)
       (getInfo : String → Except String VideoInfo)
       (getTranscript : String → Except String String)
       (summarize : String → Except String String),
      ∃ pre last,
        streamEvents extractRes getInfo getTranscript summarize =
          pre ++ [last] ∧ isTerminal last = true ∧
          ∀ e ∈ pre, isTerminal e = false) := by
  constructor
  · intro getInfo getTranscript summarize video_id info tr sm h1 h2 h3
    simp [streamEvents, h1, h2, h3]
  · intro extractRes getInfo getTranscript summarize
    cases extractRes with
    | error e => exact ⟨[], .error e, by simp [streamEvents], rfl, by simp⟩
    | ok video_id =>
      cases h1 : getInfo video_id with
      | error e =>
        exact ⟨[.progress "Fetching video info..."], .error e,
          by simp [streamEvents, h1], rfl, by simp [isTerminal]⟩
      | ok info =>
        cases h2 : getTranscript video_id with
        | error e =>
          exact ⟨[.progress "Fetching video info...",
            .progress "Fetching transcript..."], .error e,
            by simp [streamEvents, h1, h2], rfl, by simp [isTerminal]⟩
        | ok tr =>
          cases h3 : summarize tr with
          | error e =>
            exact ⟨[.progress "Fetching video info...",
              .progress "Fetching transcript...",
              .progress "Summarizing..."], .error e,
              by simp [streamEvents, h1, h2, h3], rfl, by simp [isTerminal]⟩
          | ok sm =>
            exact ⟨[.progress "Fetching video info...",
              .progress "Fetching transcript...",
              .progress "Summarizing..."], .complete video_id info sm,
              by simp [streamEvents, h1, h2, h3], rfl, by simp [isTerminal]⟩

/-- Witness for C3: all stages succeed on a concrete request. -/
theorem streaming_event_sequence_witness :
    streamEvents (.ok "dQw4w9WgXcQ") (fun _ => .ok ⟨"Title", "Thumb"⟩)
      (fun _ => .ok "transcript") (fun _ => .ok "summary") =
      [.progress "Fetching video info...",
       .progress "Fetching transcript...",
       .progress "Summarizing...",
       .complete "dQw4w9WgXcQ" ⟨"Title", "Thumb"⟩ "summary"] :=
  streaming_event_sequence.1 (fun _ => .ok ⟨"Title", "Thumb"⟩)
    (fun _ => .ok "transcript") (fun _ => .ok "summary")
    "dQw4w9WgXcQ" ⟨"Title", "Thumb"⟩ "transcript" "summary" rfl rfl rfl

/-! ### Unauthenticated metadata provider (referenced by `src/app.py`
and `cli.py`; body not under `src/`) -/

/-- Modelled from the spec: the unauthenticated `get_video_info(video_id)`
that `src/app.py` and `cli.py` call (the file `src/utils/youtube.py`
only holds the authenticated two-argument variant). Per §4.2 it derives
the thumbnail URL deterministically from the identifier — §8 fixes the
template as `https://img.youtube.com/vi/<id>/hqdefault.jpg` — and
fetches the title from a public embed-metadata endpoint; on any fetch
failure it degrades to an empty title, keeping the thumbnail, and never
raises (it is total). -/
def get_video_info_unauth (fetchTitle : String → Except String String)
    (video_id : String) : VideoInfo :=
  { title :=
      match fetchTitle video_id with
      | .ok t => t
      | .error _ => ""
    thumbnail := "https://img.youtube.com/vi/" ++ video_id ++ "/hqdefault.jpg" }

/-- Claim C4: in unauthenticated mode, when the metadata fetch fails the
provider returns a `VideoInfo` with empty title and the deterministic
thumbnail URL derived from the identifier, never raising to the caller;
and the pipeline still proceeds to the transcript and summarization
stages (its result is exactly what those two remaining stages
produce). -/
theorem unauth_info_degrades_and_pipeline_proceeds :
    (∀ (fetchTitle : String → Except String String) (video_id e : String),
      fetchTitle video_id = .error e →
      get_video_info_unauth fetchTitle video_id =
        ⟨"", "https://img.youtube.com/vi/" ++ video_id ++ "/hqdefault.jpg"⟩) ∧
    (∀ (extract : String → Except PyErr String)
       (fetchTitle : String → Except String String)
       (getTranscript askFn : String → Except PyErr String)
       (video_url video_id e : String),
      extract video_url = .ok video_id →
      fetchTitle video_id = .error e →
      run_pipeline extract (fun v => .ok (get_video_info_unauth fetchTitle v))
          getTranscript askFn video_url =
        match getTranscript video_id with
        | .error e2 => .error e2
        | .ok tr =>
          match askFn (SUMMARIZE_PROMPT_format tr) with
          | .error e2 => .error e2
          | .ok sm =>
            .ok ⟨video_id, "",
              "https://img.youtube.com/vi/" ++ video_id ++ "/hqdefault.jpg",
              sm⟩) := by
  constructor
  · intro fetchTitle video_id e h
    simp [get_video_info_unauth, h]
  · intro extract fetchTitle getTranscript askFn video_url video_id e h1 h2
    simp [run_pipeline, get_video_info_unauth, h1, h2]

/-- Witness for C4: the metadata fetch fails, yet the pipeline completes
from the remaining stages with the deterministic thumbnail. -/
theorem unauth_info_degrades_witness :
    run_pipeline (fun _ => .ok "dQw4w9WgXcQ")
      (fun v => .ok (get_video_info_unauth (fun _ => .error "network down") v))
      (fun _ => .ok "transcript") (fun _ => .ok "summary")
      "https://www.youtube.com/watch?v=dQw4w9WgXcQ" =
      .ok ⟨"dQw4w9WgXcQ", "",
        "https://img.youtube.com/vi/dQw4w9WgXcQ/hqdefault.jpg", "summary"⟩ := by
  have h := unauth_info_degrades_and_pipeline_proceeds.2
    (fun _ => .ok "dQw4w9WgXcQ") (fun _ => .error "network down")
    (fun _ => .ok "transcript") (fun _ => .ok "summary")
    "https://www.youtube.com/watch?v=dQw4w9WgXcQ" "dQw4w9WgXcQ"
    "network down" rfl rfl
  simpa using h

/-! ### Summarization client (`src/utils/gemini.py`, relay variant) -/

/-- The HTTP request `ask` builds: target URL, the `Authorization`
header value, and the JSON payload fields `prompt`, `model`, and the
optional `system_prompt`. -/
structure RelayRequest where
  url : String
  key : String
  prompt : String
  model : String
  system_prompt : Option String
deriving DecidableEq

/-- A successful (non-error status) relay response; `text` is the
`"text"` field of its JSON body when present. `requests.post` plus
`raise_for_status` are modelled as one fallible call, since transport
failures and error statuses both raise `RequestException` and hit the
same handler. -/
structure RelayResponse where
  text : Option String
deriving DecidableEq

/-- `GEMINI_ARMY_BASE_URL` of `src/utils/gemini.py`. -/
def GEMINI_ARMY_BASE_URL : String := "https://gemini-army.vercel.app"

/-- `src/utils/gemini.py::ask`: read `ARMY_ACCESS_KEY` from the
environment (`if not api_key` also rejects an empty value), build the
request, post it; a `RequestException` is re-raised as `ValueError`
(whose detail suffix is abstracted as the transport error string), and
on success the `"text"` field is returned with `""` as default. -/
def ask (env : String → Option String)
    (post : RelayRequest → Except String RelayResponse)
    (prompt model : String) (system_prompt : Option String) :
    Except PyErr String :=
  match env "ARMY_ACCESS_KEY" with
  | none => .error (.valueError "ARMY_ACCESS_KEY environment variable is not set")
  | some api_key =>
    if api_key = "" then
      .error (.valueError "ARMY_ACCESS_KEY environment variable is not set")
    else
      match post ⟨GEMINI_ARMY_BASE_URL ++ "/generate", api_key, prompt, model,
          match system_prompt with
          | some s => if s = "" then none else some s
          | none => none⟩ with
      | .error e =>
        .error (.valueError ("Error calling Gemini Army API: " ++ e))
      | .ok response => .ok (response.text.getD "")

/-- Claim C5: for every prompt, when `ARMY_ACCESS_KEY` is absent from
the environment, `ask` fails with a `ValueError` whose message names the
missing credential, and the result is the same for every network
function — no network call is attempted. -/
theorem ask_fails_without_credential (env : String → Option String)
    (prompt model : String) (system_prompt : Option String)
    (h : env "ARMY_ACCESS_KEY" = none) :
    ∀ post, ask env post prompt model system_prompt =
      .error (.valueError "ARMY_ACCESS_KEY environment variable is not set") := by
  intro post
  simp [ask, h]

/-- Witness for C5: empty environment, arbitrary network function. -/
theorem ask_fails_without_credential_witness :
    ask (fun _ => none) (fun _ => .ok ⟨some "ignored"⟩) "prompt" "model" none =
      .error (.valueError "ARMY_ACCESS_KEY environment variable is not set") :=
  ask_fails_without_credential (fun _ => none) "prompt" "model" none rfl
    (fun _ => .ok ⟨some "ignored"⟩)

/-- Claim C9: for every prompt, when the relay backend returns a
successful (non-error) HTTP response whose JSON body lacks the `text`
field, `ask` returns the empty string rather than raising. -/
theorem ask_empty_when_text_missing (env : String → Option String)
    (key prompt model : String) (system_prompt : Option String)
    (resp : RelayResponse)
    (hk : env "ARMY_ACCESS_KEY" = some key) (hk2 : key ≠ "")
    (ht : resp.text = none) :
    ask env (fun _ => .ok resp) prompt model system_prompt = .ok "" := by
  simp [ask, hk, hk2, ht]

/-- Witness for C9: a concrete environment and a textless response. -/
theorem ask_empty_when_text_missing_witness :
    ask (fun _ => some "secret-key") (fun _ => .ok ⟨none⟩)
      "prompt" "model" none = .ok "" :=
  ask_empty_when_text_missing (fun _ => some "secret-key") "secret-key"
    "prompt" "model" none ⟨none⟩ rfl (by decide) rfl

/-! ### Authenticated metadata provider (`src/utils/youtube.py`) -/

/-- One entry of the `thumbnails` dictionary; `url` is its `"url"` key
when present. -/
structure Thumb where
  url : Option String
deriving DecidableEq

/-- The `thumbnails` dictionary restricted to the three keys the source
reads. -/
structure Thumbs where
  high : Option Thumb
  medium : Option Thumb
  default : Option Thumb
deriving DecidableEq

/-- The `snippet` of a `videos().list` item, restricted to the keys the
source reads. -/
structure YSnippet where
  title : Option String
  thumbnails : Option Thumbs
deriving DecidableEq

/-- One item of the `videos().list` response. -/
structure YItem where
  snippet : Option YSnippet
deriving DecidableEq

/-- The `videos().list(part="snippet", id=...)` response: its `items`
list (`response.get("items", [])`). -/
structure VideosListResponse where
  items : List YItem
deriving DecidableEq

/-- `thumbnails.get(key, {}).get("url")`. -/
def thumbUrl (t : Option Thumb) : Option String :=
  match t with
  | some th => th.url
  | none => none

/-- Python `a or b` for an optional string `a`: `None` and `""` are
falsy. -/
def pyOr (a : Option String) (b : String) : String :=
  match a with
  | some s => if s = "" then b else s
  | none => b

/-- `src/utils/youtube.py::get_video_info` (authenticated mode): fetch
the `videos().list` response for the id; with no items return empty
title and thumbnail, otherwise the snippet title (default `""`) and the
`high or medium or default` thumbnail-url chain. The API call is the
`fetchVideos` parameter. -/
def get_video_info (fetchVideos : String → VideosListResponse)
    (video_id : String) : VideoInfo :=
  match (fetchVideos video_id).items with
  | [] => ⟨"", ""⟩
  | item :: _ =>
    let snippet := item.snippet.getD ⟨none, none⟩
    let thumbnails := snippet.thumbnails.getD ⟨none, none, none⟩
    let thumbnail_url :=
      pyOr (thumbUrl thumbnails.high)
        (pyOr (thumbUrl thumbnails.medium)
          ((thumbUrl thumbnails.default).getD ""))
    ⟨snippet.title.getD "", thumbnail_url⟩

/-- The value a Python `or` chain takes from one operand: its string
when truthy (present and non-empty), otherwise nothing. -/
def truthy (a : Option String) : Option String :=
  match a with
  | some s => if s = "" then none else some s
  | none => none

lemma pyOr_eq_truthy_getD (a : Option String) (b : String) :
    pyOr a b = (truthy a).getD b := by
  cases a with
  | none => rfl
  | some s =>
    by_cases h : s = "" <;> simp [pyOr, truthy, h]

/-- Claim C7: in authenticated mode, for every identifier,
`get_video_info` selects the thumbnail URL by descending preference
high, then medium, then default — the first of these carrying a usable
(non-empty) URL — and when the metadata response contains no items it
returns empty title and empty thumbnail without raising (the function is
total). -/
theorem get_video_info_selection (fetchVideos : String → VideosListResponse)
    (video_id : String) :
    ((fetchVideos video_id).items = [] →
      get_video_info fetchVideos video_id = ⟨"", ""⟩) ∧
    (∀ item rest sn th, (fetchVideos video_id).items = item :: rest →
      item.snippet = some sn → sn.thumbnails = some th →
      (∀ u, truthy (thumbUrl th.high) = some u →
        (get_video_info fetchVideos video_id).thumbnail = u) ∧
      (truthy (thumbUrl th.high) = none →
        ∀ u, truthy (thumbUrl th.medium) = some u →
          (get_video_info fetchVideos video_id).thumbnail = u) ∧
      (truthy (thumbUrl th.high) = none →
        truthy (thumbUrl th.medium) = none →
          (get_video_info fetchVideos video_id).thumbnail =
            (thumbUrl th.default).getD "")) := by
  constructor
  · intro h
    simp [get_video_info, h]
  · intro item rest sn th hitems hsn hth
    have hthumb : (get_video_info fetchVideos video_id).thumbnail =
        (truthy (thumbUrl th.high)).getD
          ((truthy (thumbUrl th.medium)).getD ((thumbUrl th.default).getD "")) := by
      simp [get_video_info, hitems, hsn, hth, pyOr_eq_truthy_getD]
    refine ⟨?_, ?_, ?_⟩
    · intro u hu
      rw [hthumb, hu]
      rfl
    · intro h0 u hu
      rw [hthumb, h0, hu]
      rfl
    · intro h0 h1
      rw [hthumb, h0, h1]
      rfl

/-- Sample `videos().list` response used by the C7 witness. -/
def sampleThumbs : Thumbs :=
  ⟨some ⟨some "hi.jpg"⟩, some ⟨some "med.jpg"⟩, some ⟨some "def.jpg"⟩⟩

/-- Sample response wrapper used by the C7 witness. -/
def sampleResponse : VideosListResponse :=
  ⟨[⟨some ⟨some "Title", some sampleThumbs⟩⟩]⟩

/-- Witness for C7: with all three resolutions present, the high one is
selected. -/
theorem get_video_info_selection_witness :
    (get_video_info (fun _ => sampleResponse) "dQw4w9WgXcQ").thumbnail =
      "hi.jpg" :=
  ((get_video_info_selection (fun _ => sampleResponse) "dQw4w9WgXcQ").2
    ⟨some ⟨some "Title", some sampleThumbs⟩⟩ []
    ⟨some "Title", some sampleThumbs⟩ sampleThumbs rfl rfl rfl).1
    "hi.jpg" (by decide)

/-! ### Authenticated transcript provider (`src/utils/youtube.py`) -/

/-- The `snippet` of a caption track, restricted to the `language` key
the source reads. -/
structure CapSnippet where
  language : Option String
deriving DecidableEq

/-- One caption track metadata dictionary. -/
structure Caption where
  id : Option String
  snippet : Option CapSnippet
deriving DecidableEq

/-- `caption.get("snippet", {}).get("language", "")`. -/
def captionLanguage (c : Caption) : String :=
  (c.snippet.getD ⟨none⟩).language.getD ""

/-- `language.startswith("en")`: the character sequence begins with
`'e'`, `'n'`. -/
def isEnglishCaption (c : Caption) : Bool :=
  match (captionLanguage c).toList with
  | 'e' :: 'n' :: _ => true
  | _ => false

/-- `src/utils/youtube.py::find_english_caption`: the first caption in
list order whose language tag starts with `en`; `None` when there is
none. -/
def find_english_caption : List Caption → Option Caption
  | [] => none
  | c :: rest =>
    if isEnglishCaption c then some c else find_english_caption rest

/-- `src/utils/youtube.py::get_english_caption_for_video`: build the
client (raises `ValueError` when unauthenticated), extract the video id
(raises `ValueError` for an unrecognized URL), list the caption tracks,
pick the first English one, and download it — the call leaves `tfmt` at
its `"srt"` default. The two API calls are the `listCaptions` and
`downloadCaption` parameters. -/
def get_english_caption_for_video (authenticated : Bool)
    (listCaptions : List Char → List Caption)
    (downloadCaption : Option String → String → String)
    (video_url : List Char) : Except PyErr (Option String) :=
  if authenticated then
    match extract_video_id video_url with
    | none =>
      .error (.valueError
        ("Could not extract video ID from URL: " ++ String.mk video_url))
    | some video_id =>
      match find_english_caption (listCaptions video_id) with
      | none => .ok none
      | some c => .ok (some (downloadCaption c.id "srt"))
  else
    .error (.valueError "Not authenticated. Please authenticate via /auth/login first.")

lemma find_english_caption_first (pre : List Caption) (c : Caption)
    (post : List Caption) (hpre : ∀ c' ∈ pre, isEnglishCaption c' = false)
    (hc : isEnglishCaption c = true) :
    find_english_caption (pre ++ c :: post) = some c := by
  induction pre with
  | nil => simp [find_english_caption, hc]
  | cons p rest ih =>
    have hp : isEnglishCaption p = false := hpre p (by simp)
    rw [List.cons_append, find_english_caption, if_neg (by simp [hp])]
    exact ih fun c' hc' => hpre c' (by simp [hc'])

lemma find_english_caption_none (captions : List Caption)
    (h : ∀ c ∈ captions, isEnglishCaption c = false) :
    find_english_caption captions = none := by
  induction captions with
  | nil => rfl
  | cons p rest ih =>
    have hp : isEnglishCaption p = false := h p (by simp)
    rw [find_english_caption, if_neg (by simp [hp])]
    exact ih fun c' hc' => h c' (by simp [hc'])

/-- Claim C8: in authenticated transcript mode, for every list of
caption tracks, the provider selects the first track in list order whose
language tag starts with `en` and downloads that track in `srt` format
(the default); if no such track exists, no track is downloaded and the
pipeline yields `None`. -/
theorem english_caption_selection :
    (∀ (pre : List Caption) (c : Caption) (post : List Caption),
      (∀ c' ∈ pre, isEnglishCaption c' = false) → isEnglishCaption c = true →
      find_english_caption (pre ++ c :: post) = some c) ∧
    (∀ captions : List Caption,
      (∀ c ∈ captions, isEnglishCaption c = false) →
      find_english_caption captions = none) ∧
    (∀ (listCaptions : List Char → List Caption)
       (downloadCaption : Option String → String → String)
       (video_url video_id : List Char) (pre post : List Caption)
       (c : Caption),
      extract_video_id video_url = some video_id →
      listCaptions video_id = pre ++ c :: post →
      (∀ c' ∈ pre, isEnglishCaption c' = false) → isEnglishCaption c = true →
      get_english_caption_for_video true listCaptions downloadCaption
        video_url = .ok (some (downloadCaption c.id "srt"))) ∧
    (∀ (listCaptions : List Char → List Caption)
       (downloadCaption : Option String → String → String)
       (video_url video_id : List Char),
      extract_video_id video_url = some video_id →
      (∀ c ∈ listCaptions video_id, isEnglishCaption c = false) →
      get_english_caption_for_video true listCaptions downloadCaption
        video_url = .ok none) := by
  refine ⟨find_english_caption_first, find_english_caption_none, ?_, ?_⟩
  · intro listCaptions downloadCaption video_url video_id pre post c
      hx hlist hpre hc
    simp [get_english_caption_for_video, hx, hlist,
      find_english_caption_first pre c post hpre hc]
  · intro listCaptions downloadCaption video_url video_id hx hnone
    simp [get_english_caption_for_video, hx,
      find_english_caption_none (listCaptions video_id) hnone]

/-- Witness for C8: a French track precedes an `en-US` track; the
`en-US` track is downloaded in `srt` format. -/
theorem english_caption_selection_witness :
    get_english_caption_for_video true
      (fun _ => [⟨some "c1", some ⟨some "fr"⟩⟩, ⟨some "c2", some ⟨some "en-US"⟩⟩])
      (fun cid fmt => cid.getD "" ++ "." ++ fmt)
      "https://youtu.be/dQw4w9WgXcQ".toList = .ok (some "c2.srt") := by
  have h := english_caption_selection.2.2.1
    (fun _ => [⟨some "c1", some ⟨some "fr"⟩⟩, ⟨some "c2", some ⟨some "en-US"⟩⟩])
    (fun cid fmt => cid.getD "" ++ "." ++ fmt)
    "https://youtu.be/dQw4w9WgXcQ".toList "dQw4w9WgXcQ".toList
    [⟨some "c1", some ⟨some "fr"⟩⟩] [] ⟨some "c2", some ⟨some "en-US"⟩⟩
    (by decide) rfl (by decide) (by decide)
  simpa using h
